import Mathlib

/-
Shallow embedding of the directv remote API Go client (directv.go).

The embedding models the data structures, the query-parameter maps each
capability operation builds, the URL rendering performed by the Go net/url
package for the fields this client sets, the JSON decoding performed by
encoding/json restricted to the response shapes of this client, and the
shared request helper together with every capability operation.  The HTTP
transport and the raw JSON parse are treated as the environment: a call
receives a TransportResult describing what the network returned, where the
body is the parsed JSON value, or none when the bytes are not well-formed
JSON.  The theorems at the end check the specification claims.
-/

namespace directv

/-- Decimal rendering of a Go integer, as strconv.FormatInt base 10. -/
def formatInt (i : Int) : String := toString i

/-- SetTopBox is the primary object of the library (host address and port). -/
structure SetTopBox where
  IPAddress : String
  Port : Int
  deriving DecidableEq

/-- Location represents a single Set Top Box location name. -/
structure Location where
  ClientAddress : String
  LocationName : String
  deriving DecidableEq

/-- Version information for the Set Top Box. -/
structure Version where
  AccessCardID : String
  ReceiverID : String
  STBSoftwareVersion : String
  SystemTime : Int
  VersionString : String
  deriving DecidableEq

/-- Return portion of the value of ProcessCommand. -/
structure CommandReturn where
  Data : String
  Response : Int
  Value : Int
  deriving DecidableEq

/-- Data returned from the Set Top Box for a ProcessCommand call. -/
structure CommandResponse where
  Command : Bool
  Param : Bool
  Prefix : Bool
  Return : CommandReturn
  deriving DecidableEq

/-- Status envelope embedded in every device response. -/
structure statusResponse where
  Code : Int
  CommandResult : Int
  Message : String
  Query : String
  deriving DecidableEq

/-- Program information returned by the tv endpoints. -/
structure ProgramStatusResponse where
  CallSign : String
  Date : String
  Duration : Int
  EpisodeTitle : String
  IsOffAir : Bool
  IsPClocked : Int
  IsPPV : Bool
  IsRecording : Bool
  IsVOD : Bool
  Major : Int
  Minor : Int
  Offset : Int
  ProgramID : String
  Rating : String
  StartTime : Int
  StationID : Int
  Status : statusResponse
  Title : String
  deriving DecidableEq

/-- Response shape of /info/getLocations. -/
structure getLocationsResponse where
  Locations : List Location
  Status : statusResponse
  deriving DecidableEq

/-- Response shape of /info/getSerialNum. -/
structure getSerialNumResponse where
  SerialNum : String
  Status : statusResponse
  deriving DecidableEq

/-- Response shape of /info/getVersion. -/
structure getVersionResponse where
  AccessCardID : String
  ReceiverID : String
  Status : statusResponse
  STBSoftwareVersion : String
  SystemTime : Int
  VersionString : String
  deriving DecidableEq

/-- Response shape of /info/mode. -/
structure modeResponse where
  Mode : Int
  Status : statusResponse
  deriving DecidableEq

/-- Response shape of /remote/processKey. -/
structure processKeyResponse where
  Hold : String
  Key : String
  Status : statusResponse
  deriving DecidableEq

/-- Response shape of /serial/processCommand. -/
structure processCommandResponse where
  Command : Bool
  Param : Bool
  Prefix : Bool
  Return : CommandReturn
  Status : statusResponse
  deriving DecidableEq

/-- Response shape of /tv/tune. -/
structure tuneResponse where
  Status : statusResponse
  deriving DecidableEq

/- ---------------------------------------------------------------------
   Go net/url encoding model: QueryEscape, host and path escaping, and
   Values.Encode over a list of key-value pairs with distinct keys.
   --------------------------------------------------------------------- -/

/-- UTF-8 byte sequence of a character. -/
def utf8Bytes (c : Char) : List Nat :=
  let n := c.toNat
  if n < 128 then [n]
  else if n < 2048 then [192 + n / 64, 128 + n % 64]
  else if n < 65536 then [224 + n / 4096, 128 + (n / 64) % 64, 128 + n % 64]
  else [240 + n / 262144, 128 + (n / 4096) % 64, 128 + (n / 64) % 64, 128 + n % 64]

/-- UTF-8 bytes of a string. -/
def strBytes (s : String) : List Nat :=
  s.data.foldl (fun acc c => acc ++ utf8Bytes c) []

/-- ASCII letter or digit. -/
def isAlnumByte (b : Nat) : Bool :=
  (65 ≤ b && b ≤ 90) || (97 ≤ b && b ≤ 122) || (48 ≤ b && b ≤ 57)

/-- Unreserved mark bytes: hyphen, underscore, dot, tilde. -/
def isMarkByte (b : Nat) : Bool :=
  b == 45 || b == 95 || b == 46 || b == 126

/-- Bytes never escaped in the host component, per net/url shouldEscape. -/
def hostUnescapedByte (b : Nat) : Bool :=
  isAlnumByte b || isMarkByte b ||
    b == 33 || b == 36 || b == 38 || b == 39 || b == 40 || b == 41 ||
    b == 42 || b == 43 || b == 44 || b == 59 || b == 61 || b == 58 ||
    b == 91 || b == 93 || b == 60 || b == 62 || b == 34

/-- Bytes never escaped in the path component, per net/url shouldEscape. -/
def pathUnescapedByte (b : Nat) : Bool :=
  isAlnumByte b || isMarkByte b ||
    b == 36 || b == 38 || b == 43 || b == 44 || b == 47 || b == 58 ||
    b == 59 || b == 61 || b == 64

/-- Bytes never escaped in a query component, per net/url shouldEscape. -/
def queryUnescapedByte (b : Nat) : Bool :=
  isAlnumByte b || isMarkByte b

/-- Uppercase hexadecimal digit character. -/
def hexDigitChar (n : Nat) : Char :=
  Char.ofNat (if n < 10 then 48 + n else 55 + n)

/-- Percent-encoding of one byte. -/
def percentByte (b : Nat) : String :=
  String.mk ['%', hexDigitChar (b / 16), hexDigitChar (b % 16)]

/-- Escape a string byte-wise, per the net/url escape function. -/
def escapeWith (unescaped : Nat → Bool) (plusForSpace : Bool) (s : String) : String :=
  (strBytes s).foldl
    (fun acc b =>
      if plusForSpace && b == 32 then acc ++ "+"
      else if unescaped b then acc ++ String.mk [Char.ofNat b]
      else acc ++ percentByte b) ""

/-- net/url QueryEscape. -/
def queryEscape (s : String) : String := escapeWith queryUnescapedByte true s

/-- net/url escaping of the host component. -/
def escapeHost (s : String) : String := escapeWith hostUnescapedByte false s

/-- net/url escaping of the path component. -/
def escapePath (s : String) : String := escapeWith pathUnescapedByte false s

/-- Byte-wise lexicographic comparison of key bytes, as the Go sort of keys. -/
def bytesLe : List Nat → List Nat → Bool
  | [], _ => true
  | _ :: _, [] => false
  | a :: as, b :: bs => if a < b then true else if b < a then false else bytesLe as bs

/-- Key order used when sorting query parameters. -/
def keyLe (p q : String × String) : Bool := bytesLe (strBytes p.1) (strBytes q.1)

/-- Insert one pair into a key-sorted list. -/
def insertSorted (x : String × String) : List (String × String) → List (String × String)
  | [] => [x]
  | y :: ys => if keyLe x y then x :: y :: ys else y :: insertSorted x ys

/-- Sort query parameters by key, as Values.Encode sorts its keys. -/
def sortByKey (l : List (String × String)) : List (String × String) :=
  l.foldr insertSorted []

/-- Rendered key=value components of Values.Encode, in sorted key order. -/
def encodePairs (l : List (String × String)) : List String :=
  (sortByKey l).map (fun p => queryEscape p.1 ++ "=" ++ queryEscape p.2)

/-- net/url Values.Encode over single-valued keys. -/
def valuesEncode (l : List (String × String)) : String :=
  String.intercalate "&" (encodePairs l)

/-- The url.URL fields set by the client (Scheme, Host, Path, RawQuery). -/
structure GoURL where
  scheme : String
  host : String
  path : String
  rawQuery : String

/-- Whether the first character of a string is a slash. -/
def headIsSlash (s : String) : Bool :=
  match s.data with
  | [] => false
  | c :: _ => c == '/'

/-- url.URL.String restricted to the fields above: the remaining fields of
the Go struct (Opaque, User, RawPath, OmitHost, ForceQuery, Fragment) are
zero-valued in this client, so their branches are dropped. -/
def GoURL.render (u : GoURL) : String :=
  (if u.scheme = "" then "" else u.scheme ++ ":")
    ++ (if u.scheme ≠ "" ∨ u.host ≠ "" then
          (if u.host ≠ "" ∨ u.path ≠ "" then "//" else "") ++ escapeHost u.host
        else "")
    ++ (if ¬ headIsSlash (escapePath u.path) = true ∧ escapePath u.path ≠ "" ∧ u.host ≠ ""
        then "/" else "")
    ++ escapePath u.path
    ++ (if u.rawQuery = "" then "" else "?" ++ u.rawQuery)

/-- Query part appended by url.URL.String: nothing when RawQuery is empty. -/
def optQuery (q : String) : String := if q = "" then "" else "?" ++ q

/- ---------------------------------------------------------------------
   JSON values and the encoding/json decoding used by this client.
   A body that is not well-formed JSON is represented as none at the
   transport boundary; json.Unmarshal field semantics: a field is updated
   only when its key is present with a value of the right shape, and all
   decode errors are discarded by the caller, exactly as in the source.
   --------------------------------------------------------------------- -/

inductive Json where
  | null
  | bool (b : Bool)
  | num (n : Int)
  | str (s : String)
  | arr (elems : List Json)
  | obj (fields : List (String × Json))

/-- Look up a key in a JSON object; later duplicates win, as in Go. -/
def Json.lookup (j : Json) (key : String) : Option Json :=
  match j with
  | .obj fields => fields.foldl (fun acc f => if f.1 == key then some f.2 else acc) none
  | _ => none

/-- Decode a string field: updated only when present as a JSON string. -/
def fieldStr (j : Json) (key : String) (old : String) : String :=
  match j.lookup key with
  | some (Json.str s) => s
  | _ => old

/-- Decode an integer field: updated only when present as a JSON number. -/
def fieldInt (j : Json) (key : String) (old : Int) : Int :=
  match j.lookup key with
  | some (Json.num n) => n
  | _ => old

/-- Decode a boolean field: updated only when present as a JSON bool. -/
def fieldBool (j : Json) (key : String) (old : Bool) : Bool :=
  match j.lookup key with
  | some (Json.bool b) => b
  | _ => old

/-- Decode a nested struct field through a given decoder. -/
def fieldVia (dec : Json → α → α) (j : Json) (key : String) (old : α) : α :=
  match j.lookup key with
  | some v => dec v old
  | none => old

/-- Decoder for the status envelope. -/
def decodeStatusResponse (j : Json) (old : statusResponse) : statusResponse :=
  { Code := fieldInt j "code" old.Code
    CommandResult := fieldInt j "commandResult" old.CommandResult
    Message := fieldStr j "msg" old.Message
    Query := fieldStr j "query" old.Query }

def zeroStatusResponse : statusResponse :=
  { Code := 0, CommandResult := 0, Message := "", Query := "" }

/-- Decoder for one location entry. -/
def decodeLocation (j : Json) (old : Location) : Location :=
  { ClientAddress := fieldStr j "clientAddr" old.ClientAddress
    LocationName := fieldStr j "locationName" old.LocationName }

def zeroLocation : Location := { ClientAddress := "", LocationName := "" }

/-- Decode a slice-of-Location field: a JSON array replaces the slice with
the decoded elements, JSON null sets the slice to nil, anything else
leaves the field unchanged. -/
def fieldLocations (j : Json) (key : String) (old : List Location) : List Location :=
  match j.lookup key with
  | some (Json.arr elems) => elems.map (fun e => decodeLocation e zeroLocation)
  | some Json.null => []
  | _ => old

def decodeGetLocationsResponse (j : Json) (old : getLocationsResponse) : getLocationsResponse :=
  { Locations := fieldLocations j "locations" old.Locations
    Status := fieldVia decodeStatusResponse j "status" old.Status }

def zeroGetLocationsResponse : getLocationsResponse :=
  { Locations := [], Status := zeroStatusResponse }

def decodeGetSerialNumResponse (j : Json) (old : getSerialNumResponse) : getSerialNumResponse :=
  { SerialNum := fieldStr j "serialNum" old.SerialNum
    Status := fieldVia decodeStatusResponse j "status" old.Status }

def zeroGetSerialNumResponse : getSerialNumResponse :=
  { SerialNum := "", Status := zeroStatusResponse }

def decodeGetVersionResponse (j : Json) (old : getVersionResponse) : getVersionResponse :=
  { AccessCardID := fieldStr j "accessCardId" old.AccessCardID
    ReceiverID := fieldStr j "receiverId" old.ReceiverID
    Status := fieldVia decodeStatusResponse j "status" old.Status
    STBSoftwareVersion := fieldStr j "stbSoftwareVersion" old.STBSoftwareVersion
    SystemTime := fieldInt j "systemTime" old.SystemTime
    VersionString := fieldStr j "version" old.VersionString }

def zeroGetVersionResponse : getVersionResponse :=
  { AccessCardID := "", ReceiverID := "", Status := zeroStatusResponse
    STBSoftwareVersion := "", SystemTime := 0, VersionString := "" }

def decodeModeResponse (j : Json) (old : modeResponse) : modeResponse :=
  { Mode := fieldInt j "mode" old.Mode
    Status := fieldVia decodeStatusResponse j "status" old.Status }

def zeroModeResponse : modeResponse := { Mode := 0, Status := zeroStatusResponse }

def decodeProcessKeyResponse (j : Json) (old : processKeyResponse) : processKeyResponse :=
  { Hold := fieldStr j "hold" old.Hold
    Key := fieldStr j "key" old.Key
    Status := fieldVia decodeStatusResponse j "status" old.Status }

def zeroProcessKeyResponse : processKeyResponse :=
  { Hold := "", Key := "", Status := zeroStatusResponse }

def decodeCommandReturn (j : Json) (old : CommandReturn) : CommandReturn :=
  { Data := fieldStr j "data" old.Data
    Response := fieldInt j "response" old.Response
    Value := fieldInt j "value" old.Value }

def zeroCommandReturn : CommandReturn := { Data := "", Response := 0, Value := 0 }

def decodeProcessCommandResponse (j : Json) (old : processCommandResponse) : processCommandResponse :=
  { Command := fieldBool j "command" old.Command
    Param := fieldBool j "param" old.Param
    Prefix := fieldBool j "prefix" (processCommandResponse.Prefix old)
    Return := fieldVia decodeCommandReturn j "return" old.Return
    Status := fieldVia decodeStatusResponse j "status" old.Status }

def zeroProcessCommandResponse : processCommandResponse :=
  { Command := false, Param := false, Prefix := false
    Return := zeroCommandReturn, Status := zeroStatusResponse }

def decodeTuneResponse (j : Json) (old : tuneResponse) : tuneResponse :=
  { Status := fieldVia decodeStatusResponse j "status" old.Status }

def zeroTuneResponse : tuneResponse := { Status := zeroStatusResponse }

def decodeProgramStatusResponse (j : Json) (old : ProgramStatusResponse) : ProgramStatusResponse :=
  { CallSign := fieldStr j "callsign" old.CallSign
    Date := fieldStr j "date" old.Date
    Duration := fieldInt j "duration" old.Duration
    EpisodeTitle := fieldStr j "episodeTitle" old.EpisodeTitle
    IsOffAir := fieldBool j "isOffAir" old.IsOffAir
    IsPClocked := fieldInt j "isPclocked" old.IsPClocked
    IsPPV := fieldBool j "isPpv" old.IsPPV
    IsRecording := fieldBool j "isRecording" old.IsRecording
    IsVOD := fieldBool j "isVod" old.IsVOD
    Major := fieldInt j "major" old.Major
    Minor := fieldInt j "minor" old.Minor
    Offset := fieldInt j "offset" old.Offset
    ProgramID := fieldStr j "programId" old.ProgramID
    Rating := fieldStr j "rating" old.Rating
    StartTime := fieldInt j "startTime" old.StartTime
    StationID := fieldInt j "stationId" old.StationID
    Status := fieldVia decodeStatusResponse j "status" old.Status
    Title := fieldStr j "title" old.Title }

def zeroProgramStatusResponse : ProgramStatusResponse :=
  { CallSign := "", Date := "", Duration := 0, EpisodeTitle := ""
    IsOffAir := false, IsPClocked := 0, IsPPV := false, IsRecording := false
    IsVOD := false, Major := 0, Minor := 0, Offset := 0, ProgramID := ""
    Rating := "", StartTime := 0, StationID := 0
    Status := zeroStatusResponse, Title := "" }

def zeroVersion : Version :=
  { AccessCardID := "", ReceiverID := "", STBSoftwareVersion := ""
    SystemTime := 0, VersionString := "" }

def zeroCommandResponse : CommandResponse :=
  { Command := false, Param := false, Prefix := false, Return := zeroCommandReturn }

/- ---------------------------------------------------------------------
   Transport boundary, error values, the shared request helper, and the
   capability operations.
   --------------------------------------------------------------------- -/

/-- What the HTTP transport returned: status code and body.  The body is
the JSON value the bytes parse to, or none when they are not well-formed
JSON for the target shape. -/
structure HttpResponse where
  statusCode : Nat
  body : Option Json

/-- Outcome of http.Get: a transport failure or a response. -/
inductive TransportResult where
  | failure (cause : String)
  | success (res : HttpResponse)

/-- Error values produced by the client, tagged by the errors.New site
that created them. -/
inductive GoError where
  | transportErr (cause : String)
  | statusCodeErr (code : Nat)
  | msgErr (message : String)
  deriving DecidableEq

/-- Text of an error value, as the Go Error method would report it. -/
def GoError.text : GoError → String
  | .transportErr cause => cause
  | .statusCodeErr code => "Expected Status Code 200, got " ++ formatInt (Int.ofNat code)
  | .msgErr message => message

/-- What the request helper hands back to a wrapper: the URL it printed
and issued, the state of the target struct after the best-effort decode,
and the error value. -/
structure RequestResult (α : Type) where
  url : String
  target : α
  err : Option GoError

/-- Result of one capability operation: the receiver after the call (the
Go methods never assign to it), the URL issued, the returned value, and
the returned error. -/
structure OpResult (α : Type) where
  stb : SetTopBox
  url : String
  result : α
  err : Option GoError

/-- The wrapper error rewrite shared by every capability operation: when
the decoded status message is non-empty, errors.New of that message
replaces the error, otherwise the error is kept. -/
def overrideErr (msg : String) (e : GoError) : GoError :=
  if msg ≠ "" then GoError.msgErr msg else e

/-- The shared request helper.  It builds the URL from the stored host and
port, the endpoint path and the encoded parameters; on transport failure
it returns at once with the target untouched; otherwise it records a
status error for a non-200 code, then reads the body and best-effort
decodes it into the target, discarding any decode failure, and returns
the status error (nil for a 200). -/
def request (stb : SetTopBox) (uri : String) (params : List (String × String))
    (decode : Json → α → α) (init : α) (tr : TransportResult) : RequestResult α :=
  let url := GoURL.render
    { scheme := "http"
      host := stb.IPAddress ++ ":" ++ formatInt stb.Port
      path := uri
      rawQuery := valuesEncode params }
  match tr with
  | .failure cause => { url := url, target := init, err := some (.transportErr cause) }
  | .success res =>
      { url := url
        target := match res.body with
          | none => init
          | some j => decode j init
        err := if res.statusCode ≠ 200 then some (.statusCodeErr res.statusCode) else none }

/-- Parameter map of GetLocations (none). -/
def getLocationsParams : List (String × String) := []

def getLocationsRequest (stb : SetTopBox) (tr : TransportResult) :
    RequestResult getLocationsResponse :=
  request stb "/info/getLocations" getLocationsParams
    decodeGetLocationsResponse zeroGetLocationsResponse tr

/-- GetLocations calls /info/getLocations and returns the locations. -/
def GetLocations (stb : SetTopBox) (tr : TransportResult) : OpResult (List Location) :=
  { stb := stb
    url := (getLocationsRequest stb tr).url
    result := if (getLocationsRequest stb tr).err.isSome then []
              else (getLocationsRequest stb tr).target.Locations
    err := (getLocationsRequest stb tr).err.map
             (overrideErr (getLocationsRequest stb tr).target.Status.Message) }

/-- IsConnected returns true if the box answered with at least one
location, propagating any GetLocations error. -/
def IsConnected (stb : SetTopBox) (tr : TransportResult) : OpResult Bool :=
  { stb := stb
    url := (GetLocations stb tr).url
    result := if (GetLocations stb tr).err.isSome then false
              else decide ((GetLocations stb tr).result.length > 0)
    err := (GetLocations stb tr).err }

/-- Parameter map of GetSerialNum: clientAddr only when non-empty. -/
def getSerialNumParams (clientAddr : String) : List (String × String) :=
  if clientAddr.length != 0 then [("clientAddr", clientAddr)] else []

def getSerialNumRequest (stb : SetTopBox) (clientAddr : String) (tr : TransportResult) :
    RequestResult getSerialNumResponse :=
  request stb "/info/getSerialNum" (getSerialNumParams clientAddr)
    decodeGetSerialNumResponse zeroGetSerialNumResponse tr

/-- GetSerialNum calls /info/getSerialNum and returns the serial number. -/
def GetSerialNum (stb : SetTopBox) (clientAddr : String) (tr : TransportResult) :
    OpResult String :=
  { stb := stb
    url := (getSerialNumRequest stb clientAddr tr).url
    result := if (getSerialNumRequest stb clientAddr tr).err.isSome then ""
              else (getSerialNumRequest stb clientAddr tr).target.SerialNum
    err := (getSerialNumRequest stb clientAddr tr).err.map
             (overrideErr (getSerialNumRequest stb clientAddr tr).target.Status.Message) }

/-- Parameter map of GetVersion (none). -/
def getVersionParams : List (String × String) := []

def getVersionRequest (stb : SetTopBox) (tr : TransportResult) :
    RequestResult getVersionResponse :=
  request stb "/info/getVersion" getVersionParams
    decodeGetVersionResponse zeroGetVersionResponse tr

/-- GetVersion returns the version information from the box. -/
def GetVersion (stb : SetTopBox) (tr : TransportResult) : OpResult Version :=
  { stb := stb
    url := (getVersionRequest stb tr).url
    result := if (getVersionRequest stb tr).err.isSome then zeroVersion
              else
                { AccessCardID := (getVersionRequest stb tr).target.AccessCardID
                  ReceiverID := (getVersionRequest stb tr).target.ReceiverID
                  STBSoftwareVersion := (getVersionRequest stb tr).target.STBSoftwareVersion
                  SystemTime := (getVersionRequest stb tr).target.SystemTime
                  VersionString := (getVersionRequest stb tr).target.VersionString }
    err := (getVersionRequest stb tr).err.map
             (overrideErr (getVersionRequest stb tr).target.Status.Message) }

/-- Parameter map of GetMode: clientAddr only when non-empty. -/
def getModeParams (clientAddr : String) : List (String × String) :=
  if clientAddr.length != 0 then [("clientAddr", clientAddr)] else []

def getModeRequest (stb : SetTopBox) (clientAddr : String) (tr : TransportResult) :
    RequestResult modeResponse :=
  request stb "/info/mode" (getModeParams clientAddr)
    decodeModeResponse zeroModeResponse tr

/-- GetMode calls /info/mode and returns the operating mode. -/
def GetMode (stb : SetTopBox) (clientAddr : String) (tr : TransportResult) :
    OpResult Int :=
  { stb := stb
    url := (getModeRequest stb clientAddr tr).url
    result := if (getModeRequest stb clientAddr tr).err.isSome then 0
              else (getModeRequest stb clientAddr tr).target.Mode
    err := (getModeRequest stb clientAddr tr).err.map
             (overrideErr (getModeRequest stb clientAddr tr).target.Status.Message) }

/-- Parameter map of ProcessKey: key always, hold and clientAddr only when
non-empty. -/
def processKeyParams (key hold clientAddr : String) : List (String × String) :=
  [("key", key)]
    ++ (if hold.length != 0 then [("hold", hold)] else [])
    ++ (if clientAddr.length != 0 then [("clientAddr", clientAddr)] else [])

def processKeyRequest (stb : SetTopBox) (key hold clientAddr : String)
    (tr : TransportResult) : RequestResult processKeyResponse :=
  request stb "/remote/processKey" (processKeyParams key hold clientAddr)
    decodeProcessKeyResponse zeroProcessKeyResponse tr

/-- ProcessKey sends a remote key press to the box. -/
def ProcessKey (stb : SetTopBox) (key hold clientAddr : String)
    (tr : TransportResult) : OpResult Unit :=
  { stb := stb
    url := (processKeyRequest stb key hold clientAddr tr).url
    result := ()
    err := (processKeyRequest stb key hold clientAddr tr).err.map
             (overrideErr (processKeyRequest stb key hold clientAddr tr).target.Status.Message) }

/-- Parameter map of ProcessCommand: cmd always. -/
def processCommandParams (cmd : String) : List (String × String) := [("cmd", cmd)]

def processCommandRequest (stb : SetTopBox) (cmd : String) (tr : TransportResult) :
    RequestResult processCommandResponse :=
  request stb "/serial/processCommand" (processCommandParams cmd)
    decodeProcessCommandResponse zeroProcessCommandResponse tr

/-- ProcessCommand sends a serial command to the box. -/
def ProcessCommand (stb : SetTopBox) (cmd : String) (tr : TransportResult) :
    OpResult CommandResponse :=
  { stb := stb
    url := (processCommandRequest stb cmd tr).url
    result := if (processCommandRequest stb cmd tr).err.isSome then zeroCommandResponse
              else
                { Command := (processCommandRequest stb cmd tr).target.Command
                  Param := (processCommandRequest stb cmd tr).target.Param
                  Prefix := processCommandResponse.Prefix (processCommandRequest stb cmd tr).target
                  Return := (processCommandRequest stb cmd tr).target.Return }
    err := (processCommandRequest stb cmd tr).err.map
             (overrideErr (processCommandRequest stb cmd tr).target.Status.Message) }

/-- Parameter map of GetProgInfo: major and minor always, time only when
non-zero, clientAddr only when non-empty. -/
def getProgInfoParams (channelMajor channelMinor time : Int) (clientAddr : String) :
    List (String × String) :=
  [("major", formatInt channelMajor), ("minor", formatInt channelMinor)]
    ++ (if time != 0 then [("time", formatInt time)] else [])
    ++ (if clientAddr.length != 0 then [("clientAddr", clientAddr)] else [])

def getProgInfoRequest (stb : SetTopBox) (channelMajor channelMinor time : Int)
    (clientAddr : String) (tr : TransportResult) : RequestResult ProgramStatusResponse :=
  request stb "/tv/getProgInfo" (getProgInfoParams channelMajor channelMinor time clientAddr)
    decodeProgramStatusResponse zeroProgramStatusResponse tr

/-- GetProgInfo returns information about the program on a channel.  The
Go function returns its response variable on both paths, so the decoded
target is the result even alongside an error. -/
def GetProgInfo (stb : SetTopBox) (channelMajor channelMinor time : Int)
    (clientAddr : String) (tr : TransportResult) : OpResult ProgramStatusResponse :=
  { stb := stb
    url := (getProgInfoRequest stb channelMajor channelMinor time clientAddr tr).url
    result := (getProgInfoRequest stb channelMajor channelMinor time clientAddr tr).target
    err := (getProgInfoRequest stb channelMajor channelMinor time clientAddr tr).err.map
             (overrideErr (getProgInfoRequest stb channelMajor channelMinor time clientAddr tr).target.Status.Message) }

/-- Parameter map of GetTuned: clientAddr only when non-empty. -/
def getTunedParams (clientAddr : String) : List (String × String) :=
  if clientAddr.length != 0 then [("clientAddr", clientAddr)] else []

def getTunedRequest (stb : SetTopBox) (clientAddr : String) (tr : TransportResult) :
    RequestResult ProgramStatusResponse :=
  request stb "/tv/getTuned" (getTunedParams clientAddr)
    decodeProgramStatusResponse zeroProgramStatusResponse tr

/-- GetTuned returns the program the box is tuned to.  As in GetProgInfo,
the decoded target is returned on both paths. -/
def GetTuned (stb : SetTopBox) (clientAddr : String) (tr : TransportResult) :
    OpResult ProgramStatusResponse :=
  { stb := stb
    url := (getTunedRequest stb clientAddr tr).url
    result := (getTunedRequest stb clientAddr tr).target
    err := (getTunedRequest stb clientAddr tr).err.map
             (overrideErr (getTunedRequest stb clientAddr tr).target.Status.Message) }

/-- Parameter map of TuneToChannel: major always, clientAddr only when
non-empty. -/
def tuneToChannelParams (channel clientAddr : String) : List (String × String) :=
  [("major", channel)]
    ++ (if clientAddr.length != 0 then [("clientAddr", clientAddr)] else [])

def tuneToChannelRequest (stb : SetTopBox) (channel clientAddr : String)
    (tr : TransportResult) : RequestResult tuneResponse :=
  request stb "/tv/tune" (tuneToChannelParams channel clientAddr)
    decodeTuneResponse zeroTuneResponse tr

/-- TuneToChannel tunes the box to a channel. -/
def TuneToChannel (stb : SetTopBox) (channel clientAddr : String)
    (tr : TransportResult) : OpResult Unit :=
  { stb := stb
    url := (tuneToChannelRequest stb channel clientAddr tr).url
    result := ()
    err := (tuneToChannelRequest stb channel clientAddr tr).err.map
             (overrideErr (tuneToChannelRequest stb channel clientAddr tr).target.Status.Message) }

/-- NewSetTopBox stores the supplied address with the default port 8080. -/
def NewSetTopBox (ip : String) : SetTopBox := { IPAddress := ip, Port := 8080 }


/- ---------------------------------------------------------------------
   Helper lemmas shared by the claim theorems.
   --------------------------------------------------------------------- -/

theorem length_bne_zero_iff (s : String) : (s.length != 0) = true ↔ s ≠ "" := by
  rw [bne_iff_ne]
  constructor
  · intro h he; exact h (by simp [he, String.length])
  · intro h hz
    apply h
    cases s with
    | mk l =>
      cases l with
      | nil => rfl
      | cons c cs => simp [String.length] at hz

theorem mem_insertSorted (x y : String × String) (l : List (String × String)) :
    y ∈ insertSorted x l ↔ y = x ∨ y ∈ l := by
  induction l with
  | nil => simp [insertSorted]
  | cons a as ih =>
    simp only [insertSorted]
    by_cases h : keyLe x a = true
    · rw [if_pos h]; simp [List.mem_cons]
    · rw [if_neg h]; simp only [List.mem_cons, ih]; tauto

theorem mem_sortByKey (y : String × String) (l : List (String × String)) :
    y ∈ sortByKey l ↔ y ∈ l := by
  induction l with
  | nil => simp [sortByKey]
  | cons a as ih =>
    show y ∈ insertSorted a (sortByKey as) ↔ _
    rw [mem_insertSorted]
    simp [ih, List.mem_cons]

theorem mem_encodePairs (k v : String) (l : List (String × String))
    (h : (k, v) ∈ l) : queryEscape k ++ "=" ++ queryEscape v ∈ encodePairs l := by
  unfold encodePairs
  exact List.mem_map_of_mem _ ((mem_sortByKey _ _).mpr h)

theorem render_http (host path q : String) (hpath : path ≠ "")
    (hslash : headIsSlash (escapePath path) = true) :
    GoURL.render { scheme := "http", host := host, path := path, rawQuery := q }
      = "http://" ++ escapeHost host ++ escapePath path ++ optQuery q := by
  show (if ("http" : String) = "" then "" else "http" ++ ":")
      ++ (if ("http" : String) ≠ "" ∨ host ≠ "" then
            (if host ≠ "" ∨ path ≠ "" then "//" else "") ++ escapeHost host
          else "")
      ++ (if ¬ headIsSlash (escapePath path) = true ∧ escapePath path ≠ "" ∧ host ≠ ""
          then "/" else "")
      ++ escapePath path
      ++ (if q = "" then "" else "?" ++ q) = _
  have h1 : ¬ (("http" : String) = "") := by decide
  rw [if_neg h1, if_pos (Or.inl h1), if_pos (Or.inr hpath),
    if_neg (fun hc => hc.1 hslash)]
  show "http" ++ ":" ++ ("//" ++ escapeHost host) ++ "" ++ escapePath path ++ _ = _
  rw [String.append_empty]
  simp only [optQuery, String.append_assoc]
  rw [← String.append_assoc ":" "//"]
  rw [← String.append_assoc "http"]
  rfl

theorem map_override_eq (o : Option GoError) (msg : String) (e : GoError)
    (he : o = some e) (hm : msg ≠ "") :
    o.map (overrideErr msg) = some (GoError.msgErr msg)
  ∧ Option.map GoError.text (o.map (overrideErr msg)) = some msg := by
  subst he
  simp [overrideErr, hm, GoError.text]

/- ---------------------------------------------------------------------
   Claim theorems.
   --------------------------------------------------------------------- -/

/-- C1 counterexample: a 200 response whose body is well-formed JSON with a
non-empty status message ("Forbidden") makes GetLocations succeed with the
decoded locations and no error, contradicting the claim that every
capability operation fails with a device error in this situation. -/
theorem c1_counterexample :
    (GetLocations ⟨"host", 8080⟩ (TransportResult.success ⟨200,
        some (Json.obj [("locations", Json.arr [Json.obj [("clientAddr", Json.str "0"),
          ("locationName", Json.str "Living Room")]]),
          ("status", Json.obj [("msg", Json.str "Forbidden"), ("code", Json.num 403)])])⟩)).err
      = none
  ∧ (GetLocations ⟨"host", 8080⟩ (TransportResult.success ⟨200,
        some (Json.obj [("locations", Json.arr [Json.obj [("clientAddr", Json.str "0"),
          ("locationName", Json.str "Living Room")]]),
          ("status", Json.obj [("msg", Json.str "Forbidden"), ("code", Json.num 403)])])⟩)).result
      = [{ ClientAddress := "0", LocationName := "Living Room" }]
  ∧ (decodeGetLocationsResponse
        (Json.obj [("locations", Json.arr [Json.obj [("clientAddr", Json.str "0"),
          ("locationName", Json.str "Living Room")]]),
          ("status", Json.obj [("msg", Json.str "Forbidden"), ("code", Json.num 403)])])
        zeroGetLocationsResponse).Status.Message = "Forbidden" := by
  exact ⟨by decide, by decide, by decide⟩

/-- C1 amended: every capability operation treats any response with HTTP
status 200 as a success and returns no error, whatever the body holds; the
embedded status message is consulted only after a failing request. -/
theorem c1_success_on_200 (stb : SetTopBox) (b : Option Json)
    (cA hold key cmd ch : String) (maj minr t : Int) :
    (GetLocations stb (TransportResult.success ⟨200, b⟩)).err = none
  ∧ (GetSerialNum stb cA (TransportResult.success ⟨200, b⟩)).err = none
  ∧ (GetVersion stb (TransportResult.success ⟨200, b⟩)).err = none
  ∧ (GetMode stb cA (TransportResult.success ⟨200, b⟩)).err = none
  ∧ (ProcessKey stb key hold cA (TransportResult.success ⟨200, b⟩)).err = none
  ∧ (ProcessCommand stb cmd (TransportResult.success ⟨200, b⟩)).err = none
  ∧ (GetProgInfo stb maj minr t cA (TransportResult.success ⟨200, b⟩)).err = none
  ∧ (GetTuned stb cA (TransportResult.success ⟨200, b⟩)).err = none
  ∧ (TuneToChannel stb ch cA (TransportResult.success ⟨200, b⟩)).err = none := by
  refine ⟨?_, ?_, ?_, ?_, ?_, ?_, ?_, ?_, ?_⟩ <;>
    simp [GetLocations, getLocationsRequest, GetSerialNum, getSerialNumRequest,
      GetVersion, getVersionRequest, GetMode, getModeRequest,
      ProcessKey, processKeyRequest, ProcessCommand, processCommandRequest,
      GetProgInfo, getProgInfoRequest, GetTuned, getTunedRequest,
      TuneToChannel, tuneToChannelRequest, request]

/-- C2 counterexample: a 500 response carrying a valid JSON error body with
a non-empty status message makes GetMode fail with the device message
error, not with the status-code error, so the body is decoded in the
non-200 path and the envelope takes precedence over the code. -/
theorem c2_counterexample :
    (GetMode ⟨"host", 8080⟩ "" (TransportResult.success ⟨500,
        some (Json.obj [("mode", Json.num 5),
          ("status", Json.obj [("msg", Json.str "server unavailable")])])⟩)).err
      = some (GoError.msgErr "server unavailable")
  ∧ (GetMode ⟨"host", 8080⟩ "" (TransportResult.success ⟨500,
        some (Json.obj [("mode", Json.num 5),
          ("status", Json.obj [("msg", Json.str "server unavailable")])])⟩)).err
      ≠ some (GoError.statusCodeErr 500) := by
  exact ⟨by decide, by decide⟩

/-- C2 amended: a non-200 response always makes the operation fail; the
body is still best-effort decoded, and the error is the decoded status
message when it is non-empty, otherwise the status-code error. -/
theorem c2_non200_fails (stb : SetTopBox) (res : HttpResponse)
    (cA hold key cmd ch : String) (maj minr t : Int) (h : res.statusCode ≠ 200) :
    (GetLocations stb (TransportResult.success res)).err
      = some (overrideErr (getLocationsRequest stb (TransportResult.success res)).target.Status.Message
          (GoError.statusCodeErr res.statusCode))
  ∧ (GetSerialNum stb cA (TransportResult.success res)).err
      = some (overrideErr (getSerialNumRequest stb cA (TransportResult.success res)).target.Status.Message
          (GoError.statusCodeErr res.statusCode))
  ∧ (GetVersion stb (TransportResult.success res)).err
      = some (overrideErr (getVersionRequest stb (TransportResult.success res)).target.Status.Message
          (GoError.statusCodeErr res.statusCode))
  ∧ (GetMode stb cA (TransportResult.success res)).err
      = some (overrideErr (getModeRequest stb cA (TransportResult.success res)).target.Status.Message
          (GoError.statusCodeErr res.statusCode))
  ∧ (ProcessKey stb key hold cA (TransportResult.success res)).err
      = some (overrideErr (processKeyRequest stb key hold cA (TransportResult.success res)).target.Status.Message
          (GoError.statusCodeErr res.statusCode))
  ∧ (ProcessCommand stb cmd (TransportResult.success res)).err
      = some (overrideErr (processCommandRequest stb cmd (TransportResult.success res)).target.Status.Message
          (GoError.statusCodeErr res.statusCode))
  ∧ (GetProgInfo stb maj minr t cA (TransportResult.success res)).err
      = some (overrideErr (getProgInfoRequest stb maj minr t cA (TransportResult.success res)).target.Status.Message
          (GoError.statusCodeErr res.statusCode))
  ∧ (GetTuned stb cA (TransportResult.success res)).err
      = some (overrideErr (getTunedRequest stb cA (TransportResult.success res)).target.Status.Message
          (GoError.statusCodeErr res.statusCode))
  ∧ (TuneToChannel stb ch cA (TransportResult.success res)).err
      = some (overrideErr (tuneToChannelRequest stb ch cA (TransportResult.success res)).target.Status.Message
          (GoError.statusCodeErr res.statusCode)) := by
  refine ⟨?_, ?_, ?_, ?_, ?_, ?_, ?_, ?_, ?_⟩ <;>
    simp [GetLocations, getLocationsRequest, GetSerialNum, getSerialNumRequest,
      GetVersion, getVersionRequest, GetMode, getModeRequest,
      ProcessKey, processKeyRequest, ProcessCommand, processCommandRequest,
      GetProgInfo, getProgInfoRequest, GetTuned, getTunedRequest,
      TuneToChannel, tuneToChannelRequest, request, h]

/-- C2 witness: the amended theorem applied to a 500 response with an
unparseable body, where the decoded message is empty and the error is the
status-code error itself. -/
theorem c2_non200_fails_witness :
    (GetLocations ⟨"host", 8080⟩ (TransportResult.success ⟨500, none⟩)).err
      = some (GoError.statusCodeErr 500) := by
  have h := (c2_non200_fails ⟨"host", 8080⟩ ⟨500, none⟩ "" "" "" "" "" 0 0 0
    (by decide)).1
  exact h.trans (by decide)

/-- C3 counterexample: a 200 response whose body is not well-formed JSON
makes GetMode return the zero value 0 with no error, contradicting the
claim that a decode failure is reported and that garbage bodies never
silently produce a zero-valued result. -/
theorem c3_counterexample :
    (GetMode ⟨"host", 8080⟩ "" (TransportResult.success ⟨200, none⟩)).err = none
  ∧ (GetMode ⟨"host", 8080⟩ "" (TransportResult.success ⟨200, none⟩)).result = 0 := by
  exact ⟨by decide, by decide⟩

/-- C3 amended: a 200 response whose body fails to parse yields a
successful zero-valued result for every capability operation: the parse
failure is discarded and no decode error exists. -/
theorem c3_unparseable_silent_zero (stb : SetTopBox)
    (cA hold key cmd ch : String) (maj minr t : Int) :
    (GetLocations stb (TransportResult.success ⟨200, none⟩)).err = none
  ∧ (GetLocations stb (TransportResult.success ⟨200, none⟩)).result = []
  ∧ (GetSerialNum stb cA (TransportResult.success ⟨200, none⟩)).err = none
  ∧ (GetSerialNum stb cA (TransportResult.success ⟨200, none⟩)).result = ""
  ∧ (GetVersion stb (TransportResult.success ⟨200, none⟩)).err = none
  ∧ (GetVersion stb (TransportResult.success ⟨200, none⟩)).result = zeroVersion
  ∧ (GetMode stb cA (TransportResult.success ⟨200, none⟩)).err = none
  ∧ (GetMode stb cA (TransportResult.success ⟨200, none⟩)).result = 0
  ∧ (ProcessKey stb key hold cA (TransportResult.success ⟨200, none⟩)).err = none
  ∧ (ProcessCommand stb cmd (TransportResult.success ⟨200, none⟩)).err = none
  ∧ (ProcessCommand stb cmd (TransportResult.success ⟨200, none⟩)).result = zeroCommandResponse
  ∧ (GetProgInfo stb maj minr t cA (TransportResult.success ⟨200, none⟩)).err = none
  ∧ (GetProgInfo stb maj minr t cA (TransportResult.success ⟨200, none⟩)).result
      = zeroProgramStatusResponse
  ∧ (GetTuned stb cA (TransportResult.success ⟨200, none⟩)).err = none
  ∧ (GetTuned stb cA (TransportResult.success ⟨200, none⟩)).result = zeroProgramStatusResponse
  ∧ (TuneToChannel stb ch cA (TransportResult.success ⟨200, none⟩)).err = none := by
  refine ⟨?_, ?_, ?_, ?_, ?_, ?_, ?_, ?_, ?_, ?_, ?_, ?_, ?_, ?_, ?_, ?_⟩ <;>
    simp [GetLocations, getLocationsRequest, GetSerialNum, getSerialNumRequest,
      GetVersion, getVersionRequest, GetMode, getModeRequest,
      ProcessKey, processKeyRequest, ProcessCommand, processCommandRequest,
      GetProgInfo, getProgInfoRequest, GetTuned, getTunedRequest,
      TuneToChannel, tuneToChannelRequest, request,
      zeroGetLocationsResponse, zeroGetSerialNumResponse, zeroGetVersionResponse,
      zeroModeResponse, zeroProcessCommandResponse, zeroProgramStatusResponse,
      zeroVersion, zeroCommandResponse, zeroCommandReturn, zeroStatusResponse]


/-- C4: IsConnected propagates the GetLocations error unchanged, and
returns true exactly when GetLocations succeeds with at least one
location; in particular a success with zero locations gives false with no
error, and a failure gives false with the same error. -/
theorem c4_isConnected_spec (stb : SetTopBox) (tr : TransportResult) :
    (IsConnected stb tr).err = (GetLocations stb tr).err
  ∧ ((IsConnected stb tr).result = true ↔
      ((GetLocations stb tr).err = none ∧ (GetLocations stb tr).result ≠ [])) := by
  refine ⟨rfl, ?_⟩
  show (if (GetLocations stb tr).err.isSome then false
        else decide ((GetLocations stb tr).result.length > 0)) = true ↔ _
  cases h : (GetLocations stb tr).err with
  | none => simp [h, List.length_pos]
  | some e => simp [h]

/-- C5: every optional query parameter is present exactly when supplied
non-empty (clientAddr for each operation, hold for ProcessKey, time for
GetProgInfo when non-zero), absent parameters are omitted entirely from
the parameter map, and every pair of the map reaches the encoded query as
its escaped key=value component. -/
theorem c5_optional_params (cA hold key ch : String) (maj minr t : Int) :
    (∀ ps : List (String × String), ∀ k v : String, (k, v) ∈ ps →
        queryEscape k ++ "=" ++ queryEscape v ∈ encodePairs ps)
  ∧ (("clientAddr", cA) ∈ getSerialNumParams cA ↔ cA ≠ "")
  ∧ (("clientAddr", cA) ∈ getModeParams cA ↔ cA ≠ "")
  ∧ (("clientAddr", cA) ∈ getTunedParams cA ↔ cA ≠ "")
  ∧ (("clientAddr", cA) ∈ processKeyParams key hold cA ↔ cA ≠ "")
  ∧ (("hold", hold) ∈ processKeyParams key hold cA ↔ hold ≠ "")
  ∧ (("clientAddr", cA) ∈ getProgInfoParams maj minr t cA ↔ cA ≠ "")
  ∧ (("time", formatInt t) ∈ getProgInfoParams maj minr t cA ↔ t ≠ 0)
  ∧ (("clientAddr", cA) ∈ tuneToChannelParams ch cA ↔ cA ≠ "")
  ∧ getSerialNumParams "" = []
  ∧ getModeParams "" = []
  ∧ getTunedParams "" = []
  ∧ processKeyParams key "" "" = [("key", key)]
  ∧ getProgInfoParams maj minr 0 "" = [("major", formatInt maj), ("minor", formatInt minr)]
  ∧ tuneToChannelParams ch "" = [("major", ch)] := by
  have hiff : ∀ s : String, (s.length != 0) = true ∨ s = "" := by
    intro s
    by_cases h : (s.length != 0) = true
    · exact Or.inl h
    · refine Or.inr ?_
      by_contra hne
      exact h ((length_bne_zero_iff s).mpr hne)
  refine ⟨fun ps k v h => mem_encodePairs k v ps h, ?_, ?_, ?_, ?_, ?_, ?_, ?_, ?_,
    rfl, rfl, rfl, rfl, rfl, rfl⟩
  · unfold getSerialNumParams
    rcases hiff cA with h | h
    · simp [h, (length_bne_zero_iff cA).mp h]
    · simp [h, getSerialNumParams]
  · unfold getModeParams
    rcases hiff cA with h | h
    · simp [h, (length_bne_zero_iff cA).mp h]
    · simp [h]
  · unfold getTunedParams
    rcases hiff cA with h | h
    · simp [h, (length_bne_zero_iff cA).mp h]
    · simp [h]
  · unfold processKeyParams
    rcases hiff cA with h | h
    · simp [h, (length_bne_zero_iff cA).mp h, List.mem_append]
    · simp [h, List.mem_append]
  · unfold processKeyParams
    rcases hiff hold with h | h
    · simp [h, (length_bne_zero_iff hold).mp h, List.mem_append]
    · simp [h, List.mem_append]
  · unfold getProgInfoParams
    rcases hiff cA with h | h
    · simp [h, (length_bne_zero_iff cA).mp h, List.mem_append]
    · simp [h, List.mem_append]
  · unfold getProgInfoParams
    by_cases h : (t != 0) = true
    · simp [h, bne_iff_ne.mp h, List.mem_append]
    · have he : t = 0 := by
        by_contra hne
        exact h (bne_iff_ne.mpr hne)
      subst he
      simp [List.mem_append]
  · unfold tuneToChannelParams
    rcases hiff cA with h | h
    · simp [h, (length_bne_zero_iff cA).mp h, List.mem_append]
    · simp [h, List.mem_append]

/-- C5 witness: the encoded query of GetSerialNum with selector 0 holds
the clientAddr component. -/
theorem c5_optional_params_witness :
    "clientAddr=0" ∈ encodePairs (getSerialNumParams "0") := by
  have hm : ("clientAddr", "0") ∈ getSerialNumParams "0" :=
    (c5_optional_params "0" "" "" "" 0 0 0).2.1.mpr (by decide)
  have h := (c5_optional_params "0" "" "" "" 0 0 0).1 (getSerialNumParams "0")
    "clientAddr" "0" hm
  exact (by decide : queryEscape "clientAddr" ++ "=" ++ queryEscape "0" = "clientAddr=0") ▸ h

/-- C6 counterexample: a 500 response with a partially decodable body makes
GetProgInfo return an error together with a non-zero result (the
best-effort decoded response with Title set), contradicting the claim that
an error is never accompanied by a partial result. -/
theorem c6_counterexample :
    ((GetProgInfo ⟨"host", 8080⟩ 5 0 0 "" (TransportResult.success ⟨500,
        some (Json.obj [("title", Json.str "Movie"),
          ("status", Json.obj [("msg", Json.str "bad client")])])⟩)).err).isSome = true
  ∧ (GetProgInfo ⟨"host", 8080⟩ 5 0 0 "" (TransportResult.success ⟨500,
        some (Json.obj [("title", Json.str "Movie"),
          ("status", Json.obj [("msg", Json.str "bad client")])])⟩)).result
      ≠ zeroProgramStatusResponse
  ∧ (GetProgInfo ⟨"host", 8080⟩ 5 0 0 "" (TransportResult.success ⟨500,
        some (Json.obj [("title", Json.str "Movie"),
          ("status", Json.obj [("msg", Json.str "bad client")])])⟩)).result.Title
      = "Movie" := by
  exact ⟨by decide, by decide, by decide⟩

/-- C6 amended: on an error, GetLocations returns nil, GetSerialNum the
empty string, GetVersion and ProcessCommand zero values and GetMode zero,
while GetProgInfo and GetTuned always return the best-effort decoded
target of the request helper, so a partial decode accompanies their
errors. -/
theorem c6_error_results (stb : SetTopBox) (tr : TransportResult)
    (cA cmd : String) (maj minr t : Int) :
    ((GetLocations stb tr).err.isSome = true → (GetLocations stb tr).result = [])
  ∧ ((GetSerialNum stb cA tr).err.isSome = true → (GetSerialNum stb cA tr).result = "")
  ∧ ((GetVersion stb tr).err.isSome = true → (GetVersion stb tr).result = zeroVersion)
  ∧ ((GetMode stb cA tr).err.isSome = true → (GetMode stb cA tr).result = 0)
  ∧ ((ProcessCommand stb cmd tr).err.isSome = true →
      (ProcessCommand stb cmd tr).result = zeroCommandResponse)
  ∧ (GetProgInfo stb maj minr t cA tr).result
      = (getProgInfoRequest stb maj minr t cA tr).target
  ∧ (GetTuned stb cA tr).result = (getTunedRequest stb cA tr).target := by
  refine ⟨?_, ?_, ?_, ?_, ?_, rfl, rfl⟩
  · intro h
    have h2 : (getLocationsRequest stb tr).err.isSome = true := by
      simpa [GetLocations] using h
    simp [GetLocations, h2]
  · intro h
    have h2 : (getSerialNumRequest stb cA tr).err.isSome = true := by
      simpa [GetSerialNum] using h
    simp [GetSerialNum, h2]
  · intro h
    have h2 : (getVersionRequest stb tr).err.isSome = true := by
      simpa [GetVersion] using h
    simp [GetVersion, h2]
  · intro h
    have h2 : (getModeRequest stb cA tr).err.isSome = true := by
      simpa [GetMode] using h
    simp [GetMode, h2]
  · intro h
    have h2 : (processCommandRequest stb cmd tr).err.isSome = true := by
      simpa [ProcessCommand] using h
    simp [ProcessCommand, h2]

/-- C6 witness: the amended theorem applied to a transport failure, where
GetLocations indeed returns nil alongside the error. -/
theorem c6_error_results_witness :
    (GetLocations ⟨"host", 8080⟩ (TransportResult.failure "connection refused")).result
      = [] := by
  exact (c6_error_results ⟨"host", 8080⟩ (TransportResult.failure "connection refused")
    "" "" 0 0 0).1 (by decide)


/-- C7: every operation issues exactly the URL composed of the http
scheme, the stored host and port, the fixed per-capability path and the
standard encoding of its parameter map, with the query part omitted when
the encoding is empty. -/
theorem c7_request_urls (stb : SetTopBox) (tr : TransportResult)
    (cA hold key cmd ch : String) (maj minr t : Int) :
    (GetLocations stb tr).url
      = "http://" ++ escapeHost (stb.IPAddress ++ ":" ++ formatInt stb.Port)
        ++ "/info/getLocations" ++ optQuery (valuesEncode getLocationsParams)
  ∧ (GetSerialNum stb cA tr).url
      = "http://" ++ escapeHost (stb.IPAddress ++ ":" ++ formatInt stb.Port)
        ++ "/info/getSerialNum" ++ optQuery (valuesEncode (getSerialNumParams cA))
  ∧ (GetVersion stb tr).url
      = "http://" ++ escapeHost (stb.IPAddress ++ ":" ++ formatInt stb.Port)
        ++ "/info/getVersion" ++ optQuery (valuesEncode getVersionParams)
  ∧ (GetMode stb cA tr).url
      = "http://" ++ escapeHost (stb.IPAddress ++ ":" ++ formatInt stb.Port)
        ++ "/info/mode" ++ optQuery (valuesEncode (getModeParams cA))
  ∧ (ProcessKey stb key hold cA tr).url
      = "http://" ++ escapeHost (stb.IPAddress ++ ":" ++ formatInt stb.Port)
        ++ "/remote/processKey" ++ optQuery (valuesEncode (processKeyParams key hold cA))
  ∧ (ProcessCommand stb cmd tr).url
      = "http://" ++ escapeHost (stb.IPAddress ++ ":" ++ formatInt stb.Port)
        ++ "/serial/processCommand" ++ optQuery (valuesEncode (processCommandParams cmd))
  ∧ (GetProgInfo stb maj minr t cA tr).url
      = "http://" ++ escapeHost (stb.IPAddress ++ ":" ++ formatInt stb.Port)
        ++ "/tv/getProgInfo" ++ optQuery (valuesEncode (getProgInfoParams maj minr t cA))
  ∧ (GetTuned stb cA tr).url
      = "http://" ++ escapeHost (stb.IPAddress ++ ":" ++ formatInt stb.Port)
        ++ "/tv/getTuned" ++ optQuery (valuesEncode (getTunedParams cA))
  ∧ (TuneToChannel stb ch cA tr).url
      = "http://" ++ escapeHost (stb.IPAddress ++ ":" ++ formatInt stb.Port)
        ++ "/tv/tune" ++ optQuery (valuesEncode (tuneToChannelParams ch cA)) := by
  refine ⟨?_, ?_, ?_, ?_, ?_, ?_, ?_, ?_, ?_⟩
  · have h : (getLocationsRequest stb tr).url
        = GoURL.render
            { scheme := "http"
              host := stb.IPAddress ++ ":" ++ formatInt stb.Port
              path := "/info/getLocations"
              rawQuery := valuesEncode getLocationsParams } := by
      cases tr <;> rfl
    show (getLocationsRequest stb tr).url = _
    rw [h, render_http _ _ _ (by decide) (by decide)]
    rw [show escapePath "/info/getLocations" = "/info/getLocations" from rfl]
  · have h : (getSerialNumRequest stb cA tr).url
        = GoURL.render
            { scheme := "http"
              host := stb.IPAddress ++ ":" ++ formatInt stb.Port
              path := "/info/getSerialNum"
              rawQuery := valuesEncode (getSerialNumParams cA) } := by
      cases tr <;> rfl
    show (getSerialNumRequest stb cA tr).url = _
    rw [h, render_http _ _ _ (by decide) (by decide)]
    rw [show escapePath "/info/getSerialNum" = "/info/getSerialNum" from rfl]
  · have h : (getVersionRequest stb tr).url
        = GoURL.render
            { scheme := "http"
              host := stb.IPAddress ++ ":" ++ formatInt stb.Port
              path := "/info/getVersion"
              rawQuery := valuesEncode getVersionParams } := by
      cases tr <;> rfl
    show (getVersionRequest stb tr).url = _
    rw [h, render_http _ _ _ (by decide) (by decide)]
    rw [show escapePath "/info/getVersion" = "/info/getVersion" from rfl]
  · have h : (getModeRequest stb cA tr).url
        = GoURL.render
            { scheme := "http"
              host := stb.IPAddress ++ ":" ++ formatInt stb.Port
              path := "/info/mode"
              rawQuery := valuesEncode (getModeParams cA) } := by
      cases tr <;> rfl
    show (getModeRequest stb cA tr).url = _
    rw [h, render_http _ _ _ (by decide) (by decide)]
    rw [show escapePath "/info/mode" = "/info/mode" from rfl]
  · have h : (processKeyRequest stb key hold cA tr).url
        = GoURL.render
            { scheme := "http"
              host := stb.IPAddress ++ ":" ++ formatInt stb.Port
              path := "/remote/processKey"
              rawQuery := valuesEncode (processKeyParams key hold cA) } := by
      cases tr <;> rfl
    show (processKeyRequest stb key hold cA tr).url = _
    rw [h, render_http _ _ _ (by decide) (by decide)]
    rw [show escapePath "/remote/processKey" = "/remote/processKey" from rfl]
  · have h : (processCommandRequest stb cmd tr).url
        = GoURL.render
            { scheme := "http"
              host := stb.IPAddress ++ ":" ++ formatInt stb.Port
              path := "/serial/processCommand"
              rawQuery := valuesEncode (processCommandParams cmd) } := by
      cases tr <;> rfl
    show (processCommandRequest stb cmd tr).url = _
    rw [h, render_http _ _ _ (by decide) (by decide)]
    rw [show escapePath "/serial/processCommand" = "/serial/processCommand" from rfl]
  · have h : (getProgInfoRequest stb maj minr t cA tr).url
        = GoURL.render
            { scheme := "http"
              host := stb.IPAddress ++ ":" ++ formatInt stb.Port
              path := "/tv/getProgInfo"
              rawQuery := valuesEncode (getProgInfoParams maj minr t cA) } := by
      cases tr <;> rfl
    show (getProgInfoRequest stb maj minr t cA tr).url = _
    rw [h, render_http _ _ _ (by decide) (by decide)]
    rw [show escapePath "/tv/getProgInfo" = "/tv/getProgInfo" from rfl]
  · have h : (getTunedRequest stb cA tr).url
        = GoURL.render
            { scheme := "http"
              host := stb.IPAddress ++ ":" ++ formatInt stb.Port
              path := "/tv/getTuned"
              rawQuery := valuesEncode (getTunedParams cA) } := by
      cases tr <;> rfl
    show (getTunedRequest stb cA tr).url = _
    rw [h, render_http _ _ _ (by decide) (by decide)]
    rw [show escapePath "/tv/getTuned" = "/tv/getTuned" from rfl]
  · have h : (tuneToChannelRequest stb ch cA tr).url
        = GoURL.render
            { scheme := "http"
              host := stb.IPAddress ++ ":" ++ formatInt stb.Port
              path := "/tv/tune"
              rawQuery := valuesEncode (tuneToChannelParams ch cA) } := by
      cases tr <;> rfl
    show (tuneToChannelRequest stb ch cA tr).url = _
    rw [h, render_http _ _ _ (by decide) (by decide)]
    rw [show escapePath "/tv/tune" = "/tv/tune" from rfl]

/-- C8: construction stores the supplied host verbatim with default port
8080 and is total (no error path, no validation), and no operation ever
changes the receiver. -/
theorem c8_client_immutable (ip : String) (stb : SetTopBox) (tr : TransportResult)
    (cA hold key cmd ch : String) (maj minr t : Int) :
    NewSetTopBox ip = { IPAddress := ip, Port := 8080 }
  ∧ (IsConnected stb tr).stb = stb
  ∧ (GetLocations stb tr).stb = stb
  ∧ (GetSerialNum stb cA tr).stb = stb
  ∧ (GetVersion stb tr).stb = stb
  ∧ (GetMode stb cA tr).stb = stb
  ∧ (ProcessKey stb key hold cA tr).stb = stb
  ∧ (ProcessCommand stb cmd tr).stb = stb
  ∧ (GetProgInfo stb maj minr t cA tr).stb = stb
  ∧ (GetTuned stb cA tr).stb = stb
  ∧ (TuneToChannel stb ch cA tr).stb = stb := by
  exact ⟨rfl, rfl, rfl, rfl, rfl, rfl, rfl, rfl, rfl, rfl, rfl⟩

/-- C9: for every operation, when the request helper reports an error and
the best-effort decoded body carries a non-empty status message, the
operation discards the original error and returns an error whose text is
exactly that message. -/
theorem c9_device_message_precedence (stb : SetTopBox) (tr : TransportResult)
    (cA hold key cmd ch : String) (maj minr t : Int) :
    (∀ e : GoError, (getLocationsRequest stb tr).err = some e →
      (getLocationsRequest stb tr).target.Status.Message ≠ "" →
      (GetLocations stb tr).err
          = some (GoError.msgErr (getLocationsRequest stb tr).target.Status.Message)
        ∧ Option.map GoError.text (GetLocations stb tr).err
            = some (getLocationsRequest stb tr).target.Status.Message)
  ∧ (∀ e : GoError, (getSerialNumRequest stb cA tr).err = some e →
      (getSerialNumRequest stb cA tr).target.Status.Message ≠ "" →
      (GetSerialNum stb cA tr).err
          = some (GoError.msgErr (getSerialNumRequest stb cA tr).target.Status.Message)
        ∧ Option.map GoError.text (GetSerialNum stb cA tr).err
            = some (getSerialNumRequest stb cA tr).target.Status.Message)
  ∧ (∀ e : GoError, (getVersionRequest stb tr).err = some e →
      (getVersionRequest stb tr).target.Status.Message ≠ "" →
      (GetVersion stb tr).err
          = some (GoError.msgErr (getVersionRequest stb tr).target.Status.Message)
        ∧ Option.map GoError.text (GetVersion stb tr).err
            = some (getVersionRequest stb tr).target.Status.Message)
  ∧ (∀ e : GoError, (getModeRequest stb cA tr).err = some e →
      (getModeRequest stb cA tr).target.Status.Message ≠ "" →
      (GetMode stb cA tr).err
          = some (GoError.msgErr (getModeRequest stb cA tr).target.Status.Message)
        ∧ Option.map GoError.text (GetMode stb cA tr).err
            = some (getModeRequest stb cA tr).target.Status.Message)
  ∧ (∀ e : GoError, (processKeyRequest stb key hold cA tr).err = some e →
      (processKeyRequest stb key hold cA tr).target.Status.Message ≠ "" →
      (ProcessKey stb key hold cA tr).err
          = some (GoError.msgErr (processKeyRequest stb key hold cA tr).target.Status.Message)
        ∧ Option.map GoError.text (ProcessKey stb key hold cA tr).err
            = some (processKeyRequest stb key hold cA tr).target.Status.Message)
  ∧ (∀ e : GoError, (processCommandRequest stb cmd tr).err = some e →
      (processCommandRequest stb cmd tr).target.Status.Message ≠ "" →
      (ProcessCommand stb cmd tr).err
          = some (GoError.msgErr (processCommandRequest stb cmd tr).target.Status.Message)
        ∧ Option.map GoError.text (ProcessCommand stb cmd tr).err
            = some (processCommandRequest stb cmd tr).target.Status.Message)
  ∧ (∀ e : GoError, (getProgInfoRequest stb maj minr t cA tr).err = some e →
      (getProgInfoRequest stb maj minr t cA tr).target.Status.Message ≠ "" →
      (GetProgInfo stb maj minr t cA tr).err
          = some (GoError.msgErr (getProgInfoRequest stb maj minr t cA tr).target.Status.Message)
        ∧ Option.map GoError.text (GetProgInfo stb maj minr t cA tr).err
            = some (getProgInfoRequest stb maj minr t cA tr).target.Status.Message)
  ∧ (∀ e : GoError, (getTunedRequest stb cA tr).err = some e →
      (getTunedRequest stb cA tr).target.Status.Message ≠ "" →
      (GetTuned stb cA tr).err
          = some (GoError.msgErr (getTunedRequest stb cA tr).target.Status.Message)
        ∧ Option.map GoError.text (GetTuned stb cA tr).err
            = some (getTunedRequest stb cA tr).target.Status.Message)
  ∧ (∀ e : GoError, (tuneToChannelRequest stb ch cA tr).err = some e →
      (tuneToChannelRequest stb ch cA tr).target.Status.Message ≠ "" →
      (TuneToChannel stb ch cA tr).err
          = some (GoError.msgErr (tuneToChannelRequest stb ch cA tr).target.Status.Message)
        ∧ Option.map GoError.text (TuneToChannel stb ch cA tr).err
            = some (tuneToChannelRequest stb ch cA tr).target.Status.Message) := by
  refine ⟨?_, ?_, ?_, ?_, ?_, ?_, ?_, ?_, ?_⟩
  · exact fun e he hm => map_override_eq (getLocationsRequest stb tr).err
      (getLocationsRequest stb tr).target.Status.Message e he hm
  · exact fun e he hm => map_override_eq (getSerialNumRequest stb cA tr).err
      (getSerialNumRequest stb cA tr).target.Status.Message e he hm
  · exact fun e he hm => map_override_eq (getVersionRequest stb tr).err
      (getVersionRequest stb tr).target.Status.Message e he hm
  · exact fun e he hm => map_override_eq (getModeRequest stb cA tr).err
      (getModeRequest stb cA tr).target.Status.Message e he hm
  · exact fun e he hm => map_override_eq (processKeyRequest stb key hold cA tr).err
      (processKeyRequest stb key hold cA tr).target.Status.Message e he hm
  · exact fun e he hm => map_override_eq (processCommandRequest stb cmd tr).err
      (processCommandRequest stb cmd tr).target.Status.Message e he hm
  · exact fun e he hm => map_override_eq (getProgInfoRequest stb maj minr t cA tr).err
      (getProgInfoRequest stb maj minr t cA tr).target.Status.Message e he hm
  · exact fun e he hm => map_override_eq (getTunedRequest stb cA tr).err
      (getTunedRequest stb cA tr).target.Status.Message e he hm
  · exact fun e he hm => map_override_eq (tuneToChannelRequest stb ch cA tr).err
      (tuneToChannelRequest stb ch cA tr).target.Status.Message e he hm

/-- C9 witness: a 503 response whose body carries the message no client
makes GetLocations fail with exactly that message. -/
theorem c9_device_message_precedence_witness :
    (GetLocations ⟨"host", 8080⟩ (TransportResult.success ⟨503,
        some (Json.obj [("status", Json.obj [("msg", Json.str "no client")])])⟩)).err
      = some (GoError.msgErr "no client") := by
  have h := ((c9_device_message_precedence ⟨"host", 8080⟩ (TransportResult.success ⟨503,
      some (Json.obj [("status", Json.obj [("msg", Json.str "no client")])])⟩)
      "" "" "" "" "" 0 0 0).1
    (GoError.statusCodeErr 503) (by decide) (by decide)).1
  exact h.trans (by decide)

/-- C10: required parameters are always present in the parameter map, even
when the supplied value is empty or zero: key for ProcessKey, cmd for
ProcessCommand, major for TuneToChannel, and both major and minor for
GetProgInfo (minor also when 0); an empty required key value reaches the
encoded query as an empty value. -/
theorem c10_required_params (key hold cA cmd ch : String) (maj minr t : Int) :
    ("key", key) ∈ processKeyParams key hold cA
  ∧ ("cmd", cmd) ∈ processCommandParams cmd
  ∧ ("major", ch) ∈ tuneToChannelParams ch cA
  ∧ ("major", formatInt maj) ∈ getProgInfoParams maj minr t cA
  ∧ ("minor", formatInt minr) ∈ getProgInfoParams maj minr t cA
  ∧ ("minor", "0") ∈ getProgInfoParams maj 0 t cA
  ∧ "key=" ∈ encodePairs (processKeyParams "" hold cA) := by
  refine ⟨?_, ?_, ?_, ?_, ?_, ?_, ?_⟩
  · unfold processKeyParams
    simp [List.mem_append]
  · unfold processCommandParams
    simp
  · unfold tuneToChannelParams
    simp [List.mem_append]
  · unfold getProgInfoParams
    simp [List.mem_append]
  · unfold getProgInfoParams
    simp [List.mem_append]
  · unfold getProgInfoParams
    simp [List.mem_append, formatInt]
    decide
  · have hm : ("key", "") ∈ processKeyParams "" hold cA := by
      unfold processKeyParams
      simp [List.mem_append]
    have h := mem_encodePairs "key" "" _ hm
    exact (by decide : queryEscape "key" ++ "=" ++ queryEscape "" = "key=") ▸ h

end directv
